import Mathlib

/-!
Verification of the authentication, authorization and asset-lifecycle
subsystem of a Node/Express/Mongoose blogging backend.

The JavaScript source is shallowly embedded: each service, controller and
middleware relevant to the claims is translated into an executable Lean
definition over explicit state (a list-based user store, a list-based
filesystem). Database and filesystem failures are injected through Boolean
flags so that the failure-path behaviour of the controllers is visible.
-/

namespace AuthCore

/-! ## JavaScript string semantics used by the role middleware

The role middleware evaluates `allowedRoles.includes(req.user.role)`.
When `allowedRoles` is an array this is membership; when it is a string
(as on the admin routes, which pass the bare string "admin") it is the
JavaScript substring test `String.prototype.includes`. -/

/-- leadingMatch sub hay is true when sub is an initial segment of hay. -/
def leadingMatch : List Char → List Char → Bool
  | [], _ => true
  | _ :: _, [] => false
  | a :: as, b :: bs => a == b && leadingMatch as bs

/-- hasSub sub hay is true when sub occurs contiguously inside hay. -/
def hasSub (sub : List Char) : List Char → Bool
  | [] => sub.isEmpty
  | c :: rest => leadingMatch sub (c :: rest) || hasSub sub rest

/-- JavaScript s.includes(pat) on strings: substring containment. -/
def jsStringIncludes (s pat : String) : Bool :=
  hasSub pat.toList s.toList

/-- The argument passed to the checkRole factory: either an array of role
names (blog routes) or a single string (admin user routes). -/
inductive RoleArg where
  | arr (roles : List String)
  | str (s : String)

/-- JavaScript allowedRoles.includes(role), dispatching on the runtime type
of the captured argument: Array.prototype.includes is membership,
String.prototype.includes is the substring test. -/
def roleArgIncludes : RoleArg → String → Bool
  | .arr rs, r => rs.contains r
  | .str s, r => jsStringIncludes s r

/-! ## Access Control Gate: protect middleware then checkRole middleware -/

/-- The data of req.user that the gate inspects. -/
structure GateUser where
  id : Nat
  role : String
deriving DecidableEq, Repr, Inhabited

/-- Outcome of running the middleware chain on a protected route. -/
inductive GateOutcome where
  | unauthenticated (msg : String)
  | forbidden
  | proceed (user : GateUser)
deriving DecidableEq, Repr

/-- Embeds the protect middleware: read the jwt cookie; a missing or empty
cookie is falsy and yields the 401 no-token response; otherwise jwt.verify
either fails (tampered, expired or malformed token — 401 invalid-token) or
yields a subject id that is looked up in the store and attached as
req.user (possibly null when the subject no longer exists).
Returns .error for a 401 stop, .ok for a call to next(). -/
def protect (verify : String → Option Nat) (store : Nat → Option GateUser)
    (cookie : Option String) : Except String (Option GateUser) :=
  match cookie with
  | none => .error "Not authorized: no token"
  | some t =>
    if t = "" then .error "Not authorized: no token"
    else
      match verify t with
      | none => .error "Not authorized: invalid token"
      | some id => .ok (store id)

/-- Embeds the checkRole middleware body: pass when req.user exists and
allowedRoles.includes(req.user.role); otherwise respond 403. -/
def checkRole (allowedRoles : RoleArg) (user : Option GateUser) : Bool :=
  match user with
  | some u => roleArgIncludes allowedRoles u.role
  | none => false

/-- A protected route as registered in the routers: protect runs first;
only when it calls next() does checkRole see the attached req.user. -/
def protectedRequest (allowedRoles : RoleArg) (verify : String → Option Nat)
    (store : Nat → Option GateUser) (cookie : Option String) : GateOutcome :=
  match protect verify store cookie with
  | .error m => .unauthenticated m
  | .ok u => if checkRole allowedRoles u then .proceed u.get! else .forbidden

/-- On the admin routes the factory is invoked as checkRole("admin"),
so the captured argument is the bare string. -/
def adminRouteArg : RoleArg := .str "admin"

/-- The role enumeration of the user schema. -/
def roleEnum : List String := ["user", "moderator", "admin"]

/-! ## Credential store and the auth service (auth.service.js)

A user document of the Mongoose user schema. The password field stores the
bcrypt hash (the pre-save hook replaces the plaintext on persist, embedded
below by applying a hash parameter at the write sites). The two reset
fields are optional, mirroring that they are unset unless a reset window
is active. -/

structure UserRec where
  id : Nat
  username : String
  email : String
  password : String
  profilePicture : String
  address : String
  phone : String
  resetPasswordToken : Option String
  resetPasswordExpire : Option Nat
  role : String
deriving DecidableEq, Repr

/-- registerUser: reject when a user with the email exists, otherwise
create the record; User.create runs the pre-save hook, so the stored
password is hash applied to the plaintext; role defaults to user, the
reset fields are unset. -/
def registerUser (hash : String → String) (db : List UserRec) (freshId : Nat)
    (username email password profilePicture : String) : Except String (List UserRec) :=
  match db.find? (fun u => u.email == email) with
  | some _ => .error "User already exists"
  | none => .ok (db ++ [⟨freshId, username, email, hash password, profilePicture,
      "", "", none, none, "user"⟩])

/-- loginUser: find the user by email (password explicitly selected); a
missing user and a failed matchPassword comparison throw the identical
message. verify entered stored embeds bcrypt.compare. -/
def loginUser (verify : String → String → Bool) (db : List UserRec)
    (email password : String) : Except String UserRec :=
  match db.find? (fun u => u.email == email) with
  | none => .error "Invalid email or password"
  | some u =>
    if verify password u.password then .ok u
    else .error "Invalid email or password"

/-- deleteUser: findById, throw when absent, then findByIdAndDelete.
No filesystem operation appears anywhere in this function. -/
def deleteUser (db : List UserRec) (id : Nat) : Except String (List UserRec) :=
  match db.find? (fun u => u.id == id) with
  | none => .error "User not found"
  | some _ => .ok (db.filter (fun u => !(u.id == id)))

/-- forgotPassword: find the user by email, then set resetPasswordToken to
the freshly generated token and resetPasswordExpire to now + 3600000, and
save. The random token is an input of the embedding. -/
def forgotPassword (db : List UserRec) (email token : String) (now : Nat) :
    Except String (List UserRec) :=
  match db.find? (fun u => u.email == email) with
  | none => .error "User not found"
  | some u => .ok (db.map (fun v =>
      if v.id == u.id then
        { v with resetPasswordToken := some token,
                 resetPasswordExpire := some (now + 3600000) }
      else v))

/-- The findOne filter of resetPassword: resetPasswordToken equals the
given token and resetPasswordExpire is strictly greater than Date.now(). -/
def resetMatches (token : String) (now : Nat) (u : UserRec) : Bool :=
  u.resetPasswordToken == some token &&
    (match u.resetPasswordExpire with
     | some e => decide (now < e)
     | none => false)

/-- resetPassword: findOne on the token/expiry filter; when no document
matches, throw the invalid-or-expired error; otherwise set the new
password (the pre-save hook hashes it on save) and clear both reset
fields, then save. -/
def resetPassword (hash : String → String) (db : List UserRec)
    (token newPassword : String) (now : Nat) : Except String (List UserRec) :=
  match db.find? (resetMatches token now) with
  | none => .error "Invalid or expired PIN"
  | some u => .ok (db.map (fun v =>
      if v.id == u.id then
        { v with password := hash newPassword,
                 resetPasswordToken := none,
                 resetPasswordExpire := none }
      else v))

/-- The shape of the update object the profile controller passes to the
service: exactly the four keys it may set, each optionally present. -/
structure ProfileUpdates where
  username : Option String
  address : Option String
  phone : Option String
  profilePicture : Option String
deriving DecidableEq, Repr

/-- findByIdAndUpdate with the controller update object: present keys
override, absent keys leave the document field unchanged. No other field
of the document is mentioned by the update. -/
def applyUpdates (up : ProfileUpdates) (u : UserRec) : UserRec :=
  { u with
    username := up.username.getD u.username,
    address := up.address.getD u.address,
    phone := up.phone.getD u.phone,
    profilePicture := up.profilePicture.getD u.profilePicture }

/-- updateUserProfile of the auth service: findByIdAndUpdate with the new
document returned (password deselected from the result); throw when the
user is absent. -/
def updateUserProfileService (db : List UserRec) (userId : Nat)
    (up : ProfileUpdates) : Except String (List UserRec × UserRec) :=
  match db.find? (fun u => u.id == userId) with
  | none => .error "User not found"
  | some u => .ok (db.map (fun v => if v.id == userId then applyUpdates up v else v),
      applyUpdates up u)

/-! ## Filesystem model (fs-extra)

Disk state is the list of paths currently present. fs.pathExists is
membership; fs.remove deletes a path (a no-op when absent). -/

def fsPathExists (fs : List String) (p : String) : Bool := fs.contains p

def fsRemove (fs : List String) (p : String) : List String :=
  fs.filter (fun q => !(q == p))

/-! ## Profile controller (auth.controller.js updateUserProfile) -/

/-- The request body fields an updateUserProfile request may carry. The
role and password entries can be present in the request, but the
controller never reads them. -/
structure ProfileBody where
  username : Option String
  address : Option String
  phone : Option String
  role : Option String
  password : Option String
deriving DecidableEq, Repr

/-- JavaScript truthiness of an optional string request field: absent and
the empty string are falsy. -/
def truthy : Option String → Bool
  | some s => !(s == "")
  | none => false

/-- The updates object the controller builds: each of username, address
and phone is copied only when truthy in the body; profilePicture is set
exactly when a file was uploaded. The body role and password entries are
never consulted. -/
def buildProfileUpdates (body : ProfileBody) (file : Option String) : ProfileUpdates :=
  { username := if truthy body.username then body.username else none,
    address := if truthy body.address then body.address else none,
    phone := if truthy body.phone then body.phone else none,
    profilePicture := file }

/-- Final state of one run of the profile controller: store, disk, HTTP
status, and the user document returned on success. -/
structure ProfileRun where
  db : List UserRec
  fs : List String
  status : Nat
  returned : Option UserRec
deriving DecidableEq, Repr

/-- Embeds updateUserProfile of the auth controller. Steps, in source
order: find the current user (404 when absent); build the updates object;
when a file was uploaded, delete the old picture from disk first — before
any database write — provided it is truthy and not the default avatar and
exists on disk; then call the service to persist. The dbWriteOk flag
injects a database failure into the service call; on any thrown error the
catch block deletes the newly uploaded file and responds 400. -/
def updateUserProfileController (db : List UserRec) (fs : List String)
    (userId : Nat) (body : ProfileBody) (file : Option String)
    (dbWriteOk : Bool) : ProfileRun :=
  match db.find? (fun u => u.id == userId) with
  | none => ⟨db, fs, 404, none⟩
  | some currentUser =>
    let updates := buildProfileUpdates body file
    let fs1 :=
      match file with
      | some _ =>
        if !(currentUser.profilePicture == "") &&
            !(currentUser.profilePicture == "default-avatar.png") then
          let oldPath := "uploads/" ++ currentUser.profilePicture
          if fsPathExists fs oldPath then fsRemove fs oldPath else fs
        else fs
      | none => fs
    match (if dbWriteOk then updateUserProfileService db userId updates
           else .error "db write failed") with
    | .ok (db2, updated) => ⟨db2, fs1, 200, some updated⟩
    | .error _ =>
      let fs2 :=
        match file with
        | some f => fsRemove fs1 ("uploads/" ++ f)
        | none => fs1
      ⟨db, fs2, 400, none⟩

/-- Final state of one run of the remove controller. -/
structure RemoveUserRun where
  db : List UserRec
  fs : List String
  status : Nat
deriving DecidableEq, Repr

/-- Embeds the remove controller over deleteUser: 200 on success, 404 on
a missing user; neither the controller nor the service contains a
filesystem call, so the disk state is never read or written. -/
def removeUserController (db : List UserRec) (fs : List String) (id : Nat) :
    RemoveUserRun :=
  match deleteUser db id with
  | .ok db2 => ⟨db2, fs, 200⟩
  | .error _ => ⟨db, fs, 404⟩

/-! ## Blog service and controller (blog.service.js, blog.controller.js) -/

/-- A blog document of the Mongoose blog schema. -/
structure BlogRec where
  id : Nat
  title : String
  content : String
  image : String
  author : Nat
deriving DecidableEq, Repr

/-- The text updates the blog controller builds from the body with the
same truthiness filtering as the profile controller. -/
structure BlogUpdates where
  title : Option String
  content : Option String
deriving DecidableEq, Repr

/-- Final state of one run through the blog update path. -/
structure BlogRun where
  db : List BlogRec
  fs : List String
  result : Except String BlogRec
deriving Repr

/-- Embeds updateBlog of the blog service. Steps, in source order: find
the blog (throw when absent); when a new image filename arrived, delete
the old image from disk first — before the save — whenever the stored
image name is truthy and the file exists; assign the new image into the
update data; Object.assign the updates onto the document and save. The
saveOk flag injects a save failure, which leaves the store unchanged but
keeps the already-performed disk deletion. -/
def updateBlogService (db : List BlogRec) (fs : List String) (id : Nat)
    (up : BlogUpdates) (newImageFilename : Option String) (saveOk : Bool) :
    BlogRun :=
  match db.find? (fun b => b.id == id) with
  | none => ⟨db, fs, .error "Blog not found"⟩
  | some blog =>
    let fs1 :=
      match newImageFilename with
      | some _ =>
        if !(blog.image == "") then
          let oldPath := "uploads/" ++ blog.image
          if fsPathExists fs oldPath then fsRemove fs oldPath else fs
        else fs
      | none => fs
    let blog2 := { blog with
      title := up.title.getD blog.title,
      content := up.content.getD blog.content,
      image := newImageFilename.getD blog.image }
    if saveOk then
      ⟨db.map (fun b => if b.id == id then blog2 else b), fs1, .ok blog2⟩
    else ⟨db, fs1, .error "save failed"⟩

/-- Embeds updateBlog of the blog controller: build the truthy-filtered
update data, call the service, and in the catch block delete the newly
uploaded file when one exists. -/
def updateBlogController (db : List BlogRec) (fs : List String) (id : Nat)
    (title content : Option String) (file : Option String) (saveOk : Bool) :
    BlogRun :=
  let up : BlogUpdates :=
    { title := if truthy title then title else none,
      content := if truthy content then content else none }
  let r := updateBlogService db fs id up file saveOk
  match r.result with
  | .ok _ => r
  | .error _ =>
    match file with
    | some f => ⟨r.db, fsRemove r.fs ("uploads/" ++ f), r.result⟩
    | none => r

/-- Final state of one run of deleteBlog. -/
structure DeleteBlogRun where
  db : List BlogRec
  fs : List String
  result : Except String Bool
deriving Repr

/-- Embeds deleteBlog of the blog service. Steps, in source order: find
the blog (throw when absent); when its image name is truthy and the file
exists on disk, delete the file; only then call findByIdAndDelete. The
dbDeleteOk flag injects a failure of the record deletion, which leaves
the store unchanged but keeps the already-performed disk deletion. -/
def deleteBlogService (db : List BlogRec) (fs : List String) (id : Nat)
    (dbDeleteOk : Bool) : DeleteBlogRun :=
  match db.find? (fun b => b.id == id) with
  | none => ⟨db, fs, .error "Blog not found"⟩
  | some blog =>
    let fs1 :=
      if !(blog.image == "") then
        let imagePath := "uploads/" ++ blog.image
        if fsPathExists fs imagePath then fsRemove fs imagePath else fs
      else fs
    if dbDeleteOk then ⟨db.filter (fun b => !(b.id == id)), fs1, .ok true⟩
    else ⟨db, fs1, .error "record deletion failed"⟩

/-! ## The pre-save password hook (user.model.js) -/

/-- The slice of a persisted user document the pre-save hook inspects: the
password field and the Mongoose is-modified flag for that path. The flag
is set by assigning the field and cleared by a completed save. -/
structure PersistedUser where
  password : String
  passwordModified : Bool
deriving DecidableEq, Repr

/-- Assigning user.password marks the path modified. -/
def setPassword (d : PersistedUser) (pw : String) : PersistedUser :=
  { d with password := pw, passwordModified := true }

/-- document.save(): the pre-save hook returns immediately when the
password path is unmodified, otherwise it replaces the password with its
bcrypt hash; a completed save clears the modified flag. -/
def mongooseSave (hash : String → String) (d : PersistedUser) : PersistedUser :=
  if d.passwordModified then ⟨hash d.password, false⟩
  else ⟨d.password, false⟩

/-! ## Reachable store states

One constructor per mutating operation of the auth subsystem; loginUser
performs no store mutation and therefore has no constructor. The update
constructor quantifies over every updates object the service can receive
from the profile controller. -/

inductive Reachable : List UserRec → Prop where
  | init : Reachable []
  | register (hash : String → String) (db db2 : List UserRec) (freshId : Nat)
      (username email password profilePicture : String) :
      Reachable db →
      registerUser hash db freshId username email password profilePicture = .ok db2 →
      Reachable db2
  | forgot (db db2 : List UserRec) (email token : String) (now : Nat) :
      Reachable db → forgotPassword db email token now = .ok db2 → Reachable db2
  | reset (hash : String → String) (db db2 : List UserRec)
      (token newPassword : String) (now : Nat) :
      Reachable db → resetPassword hash db token newPassword now = .ok db2 →
      Reachable db2
  | remove (db db2 : List UserRec) (id : Nat) :
      Reachable db → deleteUser db id = .ok db2 → Reachable db2
  | update (db db2 : List UserRec) (userId : Nat) (up : ProfileUpdates) (u : UserRec) :
      Reachable db → updateUserProfileService db userId up = .ok (db2, u) →
      Reachable db2

/-- The pairing invariant of the reset fields: in every record both are
set or both are absent. -/
def resetPaired (db : List UserRec) : Prop :=
  ∀ u ∈ db, u.resetPasswordToken.isSome = u.resetPasswordExpire.isSome

/-- A small stand-in hash used only to instantiate witnesses. -/
def wHash (s : String) : String := "#" ++ s

/-- Witness store for the reset flow: one user with an active window. -/
def wResetDb : List UserRec :=
  [⟨1, "alice", "a@x.com", "#pw", "p.png", "", "", some "123456", some 200, "user"⟩]

/-- The store after the first successful resetPassword call. -/
def wResetDb2 : List UserRec :=
  [⟨1, "alice", "a@x.com", wHash "npw", "p.png", "", "", none, none, "user"⟩]

end AuthCore

namespace AuthCore

/-- Both terminal behaviours of the gate once the token verified and the
principal resolved: forbidden when the role check fails, proceed when it
passes. Shared between the gate theorems below. -/
theorem protectedRequest_resolved (allowed : RoleArg)
    (verify : String → Option Nat) (store : Nat → Option GateUser)
    (t : String) (i : Nat) (u : GateUser) (hv : verify t = some i)
    (ht : t ≠ "") (hs : store i = some u) :
    (roleArgIncludes allowed u.role = false →
      protectedRequest allowed verify store (some t) = .forbidden) ∧
    (roleArgIncludes allowed u.role = true →
      protectedRequest allowed verify store (some t) = .proceed u) := by
  constructor
  · intro hr
    simp [protectedRequest, protect, ht, hv, checkRole, hs, hr]
  · intro hr
    simp [protectedRequest, protect, ht, hv, checkRole, hs, hr, Option.get!]

/-- C3: Access Control Gate state machine — an absent (or empty, hence
falsy) session cookie yields Unauthenticated; a present but invalid or
expired token yields Unauthenticated; a valid token whose resolved
principal has a role outside the allow-set yields Forbidden; a valid token
with an allowed role proceeds to the handler; and a Forbidden outcome can
only arise after identity resolution succeeded, i.e. resolution always
runs before the role check. -/
theorem c3_access_gate (allowed : RoleArg) (verify : String → Option Nat)
    (store : Nat → Option GateUser) :
    (∀ t, protectedRequest allowed verify store none =
        .unauthenticated "Not authorized: no token" ∧
      (verify t = none → t ≠ "" →
        protectedRequest allowed verify store (some t) =
          .unauthenticated "Not authorized: invalid token")) ∧
    (∀ t i u, verify t = some i → t ≠ "" → store i = some u →
      (roleArgIncludes allowed u.role = false →
        protectedRequest allowed verify store (some t) = .forbidden) ∧
      (roleArgIncludes allowed u.role = true →
        protectedRequest allowed verify store (some t) = .proceed u)) ∧
    (∀ c, protectedRequest allowed verify store c = .forbidden →
      ∃ t i, c = some t ∧ verify t = some i) := by
  refine ⟨fun t => ⟨rfl, fun hv ht => ?_⟩,
    fun t i u hv ht hs => protectedRequest_resolved allowed verify store t i u hv ht hs,
    fun c hf => ?_⟩
  · simp [protectedRequest, protect, ht, hv]
  · match c with
    | none => simp [protectedRequest, protect] at hf
    | some t =>
      by_cases ht : t = ""
      · simp [protectedRequest, protect, ht] at hf
      · match hv : verify t with
        | none => simp [protectedRequest, protect, ht, hv] at hf
        | some i => exact ⟨t, i, rfl, hv⟩

/-- Witness for c3_access_gate at a concrete verifier, store and route:
the three terminal outcomes and the proceed outcome are all exhibited. -/
theorem c3_access_gate_witness :
    (protectedRequest (.arr ["admin"]) (fun t => if t = "tok" then some 1 else none)
        (fun i => if i = 1 then some ⟨1, "admin"⟩ else none) none =
      .unauthenticated "Not authorized: no token") ∧
    (protectedRequest (.arr ["admin"]) (fun t => if t = "tok" then some 1 else none)
        (fun i => if i = 1 then some ⟨1, "admin"⟩ else none) (some "bad") =
      .unauthenticated "Not authorized: invalid token") ∧
    (protectedRequest (.arr ["admin"]) (fun t => if t = "tok" then some 1 else none)
        (fun i => if i = 1 then some ⟨1, "admin"⟩ else none) (some "tok") =
      .proceed ⟨1, "admin"⟩) := by
  refine ⟨((c3_access_gate (.arr ["admin"]) _ _).1 "bad").1, ?_, ?_⟩
  · exact ((c3_access_gate (.arr ["admin"]) _ _).1 "bad").2 (by decide) (by decide)
  · exact (((c3_access_gate (.arr ["admin"]) _ _).2.1 "tok" 1 ⟨1, "admin"⟩
      (by decide) (by decide) (by decide)).2 (by decide))

/-- C10: on the admin-gated routes checkRole receives the string "admin",
so the check is the substring test "admin".includes(role); over the three
schema roles this authorizes exactly the role "admin", and for the other
two roles the gate ends Forbidden even with a valid token. -/
theorem c10_admin_string_includes (role : String) (h : role ∈ roleEnum)
    (verify : String → Option Nat) (store : Nat → Option GateUser)
    (t : String) (i : Nat) (u : GateUser) (hv : verify t = some i)
    (ht : t ≠ "") (hs : store i = some u) (hrole : u.role = role) :
    (roleArgIncludes adminRouteArg role = true ↔ role = "admin") ∧
    (role ≠ "admin" →
      protectedRequest adminRouteArg verify store (some t) = .forbidden) ∧
    (role = "admin" →
      protectedRequest adminRouteArg verify store (some t) = .proceed u) := by
  have hcases : role = "user" ∨ role = "moderator" ∨ role = "admin" := by
    simpa [roleEnum] using h
  refine ⟨?_, fun hne => ?_, fun heq => ?_⟩
  · rcases hcases with h1 | h1 | h1 <;> subst h1 <;> simp <;> decide
  · rcases hcases with h1 | h1 | h1 <;> subst h1 <;>
      first
        | exact (protectedRequest_resolved adminRouteArg verify store t i u hv ht hs).1
            (by rw [hrole]; decide)
        | exact absurd rfl hne
  · exact (protectedRequest_resolved adminRouteArg verify store t i u hv ht hs).2
      (by rw [hrole, heq]; decide)

end AuthCore

namespace AuthCore

/-- A false fsPathExists means the path is not on disk. -/
theorem not_mem_of_fsPathExists_false (fs : List String) (q : String)
    (h : fsPathExists fs q = false) : q ∉ fs := by
  intro hq
  have : fs.contains q = true := List.elem_iff.2 hq
  rw [fsPathExists] at h
  rw [this] at h
  simp at h

/-- A path absent from disk has a false fsPathExists. -/
theorem fsPathExists_false_of_not_mem (fs : List String) (q : String)
    (h : q ∉ fs) : fsPathExists fs q = false := by
  by_cases hc : fsPathExists fs q = true
  · exact absurd (List.elem_iff.1 hc) h
  · simpa using hc

/-- A path is gone right after fs.remove deletes it. -/
theorem fsPathExists_fsRemove_self (fs : List String) (p : String) :
    fsPathExists (fsRemove fs p) p = false := by
  apply fsPathExists_false_of_not_mem
  intro hq
  have := (List.mem_filter.1 hq).2
  simp at this

/-- fs.remove never makes a path appear. -/
theorem fsPathExists_fsRemove_of_eq_false (fs : List String) (p q : String)
    (h : fsPathExists fs q = false) :
    fsPathExists (fsRemove fs p) q = false := by
  apply fsPathExists_false_of_not_mem
  intro hq
  exact not_mem_of_fsPathExists_false fs q h (List.mem_filter.1 hq).1

/-- After the guarded cleanup pattern of the source — check pathExists,
then remove — the path is gone whether or not it was present. -/
theorem fsPathExists_removeIfExists (fs : List String) (p : String) :
    fsPathExists (if fsPathExists fs p then fsRemove fs p else fs) p = false := by
  by_cases h : fsPathExists fs p = true
  · rw [if_pos h]; exact fsPathExists_fsRemove_self fs p
  · rw [if_neg (by simpa using h)]; simpa using h

/-- C7: the write-path hashing is conditional and idempotent — saving a
document whose password path is unmodified leaves the stored hash
unchanged, saving after assigning a new plaintext stores exactly one
application of the hash, and an immediately following save does not
re-hash the already-hashed value. -/
theorem c7_hash_once (hash : String → String) (d : PersistedUser) (pw : String)
    (h : d.passwordModified = false) :
    (mongooseSave hash d).password = d.password ∧
    (mongooseSave hash (setPassword d pw)).password = hash pw ∧
    (mongooseSave hash (mongooseSave hash (setPassword d pw))).password = hash pw := by
  refine ⟨?_, ?_, ?_⟩ <;> simp [mongooseSave, setPassword, h]

/-- Witness for c7_hash_once at a concrete document and hash. -/
theorem c7_hash_once_witness :
    (mongooseSave wHash ⟨"#old", false⟩).password = "#old" ∧
    (mongooseSave wHash (setPassword ⟨"#old", false⟩ "new")).password = wHash "new" ∧
    (mongooseSave wHash (mongooseSave wHash (setPassword ⟨"#old", false⟩ "new"))).password =
      wHash "new" :=
  c7_hash_once wHash ⟨"#old", false⟩ "new" rfl

/-- C4: single use of a reset token — when resetPassword succeeds with
token t in a store where t is held by at most one user id, the matched
user has both reset fields cleared in the resulting store before the call
returns, no user of the resulting store holds t, and a second call with
the same t fails with the invalid-or-expired error at any later (or any)
instant. -/
theorem c4_reset_single_use (hash : String → String) (db db2 : List UserRec)
    (token newPassword newPassword2 : String) (now now2 : Nat)
    (huniq : ∀ u ∈ db, ∀ v ∈ db, u.resetPasswordToken = some token →
      v.resetPasswordToken = some token → u.id = v.id)
    (hok : resetPassword hash db token newPassword now = .ok db2) :
    (∃ u ∈ db, resetMatches token now u = true ∧
      ∀ v ∈ db2, v.id = u.id →
        v.resetPasswordToken = none ∧ v.resetPasswordExpire = none) ∧
    (∀ v ∈ db2, v.resetPasswordToken ≠ some token) ∧
    resetPassword hash db2 token newPassword2 now2 = .error "Invalid or expired PIN" := by
  unfold resetPassword at hok
  rcases hf : db.find? (resetMatches token now) with _ | u
  · rw [hf] at hok; exact absurd hok (by simp)
  · rw [hf] at hok
    have hdb2 : db.map (fun v =>
        if v.id == u.id then
          { v with password := hash newPassword,
                   resetPasswordToken := none,
                   resetPasswordExpire := none }
        else v) = db2 := by injection hok
    have humem : u ∈ db := List.mem_of_find?_eq_some hf
    have hu : resetMatches token now u = true := List.find?_some hf
    have hutok : u.resetPasswordToken = some token := by
      simp only [resetMatches, Bool.and_eq_true, beq_iff_eq] at hu
      exact hu.1
    have hnotok : ∀ v ∈ db2, v.resetPasswordToken ≠ some token := by
      intro v hv
      rw [← hdb2] at hv
      rcases List.mem_map.1 hv with ⟨w, hwmem, hw⟩
      by_cases hid : (w.id == u.id) = true
      · rw [if_pos hid] at hw
        rw [← hw]
        simp
      · rw [if_neg hid] at hw
        subst hw
        intro hvt
        exact hid (by simpa using huniq w hwmem u humem hvt hutok)
    refine ⟨⟨u, humem, hu, ?_⟩, hnotok, ?_⟩
    · intro v hv hvid
      rw [← hdb2] at hv
      rcases List.mem_map.1 hv with ⟨w, hwmem, hw⟩
      by_cases hid : (w.id == u.id) = true
      · rw [if_pos hid] at hw
        rw [← hw]
        exact ⟨rfl, rfl⟩
      · rw [if_neg hid] at hw
        subst hw
        exact absurd (by simpa using hvid) hid
    · have hnone : db2.find? (resetMatches token now2) = none := by
        rw [List.find?_eq_none]
        intro v hv hvm
        simp only [resetMatches, Bool.and_eq_true, beq_iff_eq] at hvm
        exact hnotok v hv hvm.1
      unfold resetPassword
      rw [hnone]

/-- Witness for c4_reset_single_use: after the concrete first call
succeeds at instant 100, a second call with the same token at instant 150
fails with the invalid-or-expired error. -/
theorem c4_reset_single_use_witness :
    resetPassword wHash wResetDb2 "123456" "npw2" 150 = .error "Invalid or expired PIN" :=
  (c4_reset_single_use wHash wResetDb wResetDb2 "123456" "npw" "npw2" 100 150
    (by decide) rfl).2.2

/-- C5: resetPassword succeeds exactly when some stored user has
resetPasswordToken equal to the given token and a resetPasswordExpire
strictly in the future of the call instant; in every other case,
including an exact token match whose expiry has passed, it fails with the
invalid-or-expired error. -/
theorem c5_reset_validity (hash : String → String) (db : List UserRec)
    (token newPassword : String) (now : Nat) :
    ((∃ db2, resetPassword hash db token newPassword now = .ok db2) ↔
      ∃ u ∈ db, u.resetPasswordToken = some token ∧
        ∃ e, u.resetPasswordExpire = some e ∧ now < e) ∧
    ((¬ ∃ u ∈ db, u.resetPasswordToken = some token ∧
        ∃ e, u.resetPasswordExpire = some e ∧ now < e) →
      resetPassword hash db token newPassword now = .error "Invalid or expired PIN") := by
  have hchar : ∀ u : UserRec, resetMatches token now u = true ↔
      (u.resetPasswordToken = some token ∧ ∃ e, u.resetPasswordExpire = some e ∧ now < e) := by
    intro u
    constructor
    · intro h
      simp only [resetMatches, Bool.and_eq_true, beq_iff_eq] at h
      refine ⟨h.1, ?_⟩
      rcases he : u.resetPasswordExpire with _ | e
      · rw [he] at h; simp at h
      · rw [he] at h; exact ⟨e, rfl, by simpa using h.2⟩
    · rintro ⟨h1, e, h2, h3⟩
      simp [resetMatches, h1, h2, h3]
  constructor
  · constructor
    · rintro ⟨db2, hok⟩
      unfold resetPassword at hok
      rcases hf : db.find? (resetMatches token now) with _ | u
      · rw [hf] at hok; exact absurd hok (by simp)
      · exact ⟨u, List.mem_of_find?_eq_some hf, (hchar u).1 (List.find?_some hf)⟩
    · rintro ⟨u, hmem, hu⟩
      have : db.find? (resetMatches token now) ≠ none := by
        intro hnone
        exact absurd ((hchar u).2 hu) (by simpa using List.find?_eq_none.1 hnone u hmem)
      rcases hf : db.find? (resetMatches token now) with _ | v
      · exact absurd hf this
      · exact ⟨_, by unfold resetPassword; rw [hf]⟩
  · intro hno
    have hnone : db.find? (resetMatches token now) = none := by
      rw [List.find?_eq_none]
      intro u hmem hu
      exact hno ⟨u, hmem, (hchar u).1 hu⟩
    unfold resetPassword
    rw [hnone]

/-- Witness for c5_reset_validity: with a store holding one user whose
token is "123456" but whose expiry instant 50 lies in the past of the call
instant 100, resetPassword fails with the invalid-or-expired error even
though the token string matches exactly. -/
theorem c5_reset_validity_witness :
    resetPassword (fun s => String.append "#" s)
      [⟨1, "alice", "a@x.com", "#pw", "p.png", "", "", some "123456", some 50, "user"⟩]
      "123456" "npw" 100 = .error "Invalid or expired PIN" := by
  refine (c5_reset_validity _ _ _ _ _).2 ?_
  rintro ⟨u, hmem, h1, e, h2, h3⟩
  simp only [List.mem_singleton] at hmem
  subst hmem
  simp only at h2
  injection h2 with h2
  omega

/-- C6: login failure is indistinguishable between the no-such-email cause
and the password-mismatch cause — both runs return the same error with
the same message, preventing account enumeration. -/
theorem c6_login_indistinguishable (verify : String → String → Bool)
    (db : List UserRec) (e1 p1 e2 p2 : String) (u : UserRec)
    (h1 : db.find? (fun v => v.email == e1) = none)
    (h2 : db.find? (fun v => v.email == e2) = some u)
    (h3 : verify p2 u.password = false) :
    loginUser verify db e1 p1 = .error "Invalid email or password" ∧
    loginUser verify db e2 p2 = .error "Invalid email or password" ∧
    loginUser verify db e1 p1 = loginUser verify db e2 p2 := by
  refine ⟨?_, ?_, ?_⟩ <;> simp [loginUser, h1, h2, h3]

/-- Witness for c6_login_indistinguishable: a concrete store where the
email b@x.com is absent and the password guess for a@x.com mismatches;
both login attempts return the identical error value. -/
theorem c6_login_indistinguishable_witness :
    loginUser (fun a b => a == b)
      [⟨1, "alice", "a@x.com", "#pw", "p.png", "", "", none, none, "user"⟩]
      "b@x.com" "guess" = .error "Invalid email or password" ∧
    loginUser (fun a b => a == b)
      [⟨1, "alice", "a@x.com", "#pw", "p.png", "", "", none, none, "user"⟩]
      "a@x.com" "wrong" = .error "Invalid email or password" ∧
    loginUser (fun a b => a == b)
      [⟨1, "alice", "a@x.com", "#pw", "p.png", "", "", none, none, "user"⟩]
      "b@x.com" "guess" =
    loginUser (fun a b => a == b)
      [⟨1, "alice", "a@x.com", "#pw", "p.png", "", "", none, none, "user"⟩]
      "a@x.com" "wrong" :=
  c6_login_indistinguishable (fun a b => a == b)
    [⟨1, "alice", "a@x.com", "#pw", "p.png", "", "", none, none, "user"⟩]
    "b@x.com" "guess" "a@x.com" "wrong"
    ⟨1, "alice", "a@x.com", "#pw", "p.png", "", "", none, none, "user"⟩
    (by decide) (by decide) (by decide)

/-- Computation of the profile controller on the failure path with an
uploaded file: the old picture has already been deleted from disk before
the database write was attempted, the catch block then deletes the new
file, and the store is unchanged. -/
theorem updateUserProfileController_some_false (db : List UserRec)
    (fs : List String) (userId : Nat) (body : ProfileBody) (f : String)
    (currentUser : UserRec)
    (hfind : db.find? (fun u => u.id == userId) = some currentUser) :
    updateUserProfileController db fs userId body (some f) false =
      ⟨db,
       fsRemove
         (if !(currentUser.profilePicture == "") &&
             !(currentUser.profilePicture == "default-avatar.png") then
            (if fsPathExists fs ("uploads/" ++ currentUser.profilePicture) then
               fsRemove fs ("uploads/" ++ currentUser.profilePicture) else fs)
          else fs)
         ("uploads/" ++ f), 400, none⟩ := by
  unfold updateUserProfileController
  rw [hfind]
  rfl

/-- Computation of the blog update controller on the failure path with an
uploaded file: the old image has already been deleted from disk before
the save was attempted, the catch block then deletes the new file, and
the store is unchanged. -/
theorem updateBlogController_some_false (db : List BlogRec) (fs : List String)
    (id : Nat) (title content : Option String) (f : String) (blog : BlogRec)
    (hfind : db.find? (fun b => b.id == id) = some blog) :
    updateBlogController db fs id title content (some f) false =
      ⟨db,
       fsRemove
         (if !(blog.image == "") then
            (if fsPathExists fs ("uploads/" ++ blog.image) then
               fsRemove fs ("uploads/" ++ blog.image) else fs)
          else fs)
         ("uploads/" ++ f),
       .error "save failed"⟩ := by
  unfold updateBlogController updateBlogService
  rw [hfind]
  rfl

/-- Computation of deleteBlog once the record is found: the image file is
removed from disk first, unconditionally on the outcome of the record
deletion that follows. -/
theorem deleteBlogService_found (db : List BlogRec) (fs : List String)
    (id : Nat) (blog : BlogRec) (ok : Bool)
    (hfind : db.find? (fun b => b.id == id) = some blog) :
    deleteBlogService db fs id ok =
      ⟨if ok then db.filter (fun b => !(b.id == id)) else db,
       (if !(blog.image == "") then
          (if fsPathExists fs ("uploads/" ++ blog.image) then
             fsRemove fs ("uploads/" ++ blog.image) else fs)
        else fs),
       if ok then .ok true else .error "record deletion failed"⟩ := by
  unfold deleteBlogService
  rw [hfind]
  cases ok <;> rfl

/-- C1 counterexample: a profile update with a new uploaded file whose
database write fails. The claim asserts the previously referenced old
file remains untouched on disk; in this run the old file uploads/old.png
has been deleted (the code removes it before the write), so the claim is
false at this input. The new file is removed and the record still
references old.png, as the code and the rest of the claim say. -/
theorem c1_counterexample :
    ((updateUserProfileController
        [⟨1, "alice", "a@x.com", "#pw", "old.png", "", "", none, none, "user"⟩]
        ["uploads/old.png", "uploads/new.png"] 1
        ⟨none, none, none, none, none⟩ (some "new.png") false).status = 400) ∧
    ((updateUserProfileController
        [⟨1, "alice", "a@x.com", "#pw", "old.png", "", "", none, none, "user"⟩]
        ["uploads/old.png", "uploads/new.png"] 1
        ⟨none, none, none, none, none⟩ (some "new.png") false).db =
      [⟨1, "alice", "a@x.com", "#pw", "old.png", "", "", none, none, "user"⟩]) ∧
    (fsPathExists (updateUserProfileController
        [⟨1, "alice", "a@x.com", "#pw", "old.png", "", "", none, none, "user"⟩]
        ["uploads/old.png", "uploads/new.png"] 1
        ⟨none, none, none, none, none⟩ (some "new.png") false).fs
      "uploads/new.png" = false) ∧
    (fsPathExists (updateUserProfileController
        [⟨1, "alice", "a@x.com", "#pw", "old.png", "", "", none, none, "user"⟩]
        ["uploads/old.png", "uploads/new.png"] 1
        ⟨none, none, none, none, none⟩ (some "new.png") false).fs
      "uploads/old.png" = false) := by
  decide

/-- C1 as amended: when a profile or blog update arrives with a new
uploaded file and the database write fails, the newly uploaded file is
removed and the record still references the old filename, but the old
file does not remain on disk — it was already deleted before the
persistence attempt whenever it was a real (truthy, non-placeholder)
asset. -/
theorem c1_amended_swap_failure (db : List UserRec) (fs : List String)
    (userId : Nat) (body : ProfileBody) (f : String) (currentUser : UserRec)
    (hfind : db.find? (fun u => u.id == userId) = some currentUser)
    (bdb : List BlogRec) (bfs : List String) (bid : Nat)
    (btitle bcontent : Option String) (bf : String) (blog : BlogRec)
    (hbfind : bdb.find? (fun b => b.id == bid) = some blog) :
    ((updateUserProfileController db fs userId body (some f) false).db = db ∧
     (updateUserProfileController db fs userId body (some f) false).status = 400 ∧
     fsPathExists (updateUserProfileController db fs userId body (some f) false).fs
       ("uploads/" ++ f) = false ∧
     (currentUser.profilePicture ≠ "" →
      currentUser.profilePicture ≠ "default-avatar.png" →
       fsPathExists (updateUserProfileController db fs userId body (some f) false).fs
         ("uploads/" ++ currentUser.profilePicture) = false)) ∧
    ((updateBlogController bdb bfs bid btitle bcontent (some bf) false).db = bdb ∧
     (updateBlogController bdb bfs bid btitle bcontent (some bf) false).result =
       .error "save failed" ∧
     fsPathExists (updateBlogController bdb bfs bid btitle bcontent (some bf) false).fs
       ("uploads/" ++ bf) = false ∧
     (blog.image ≠ "" →
       fsPathExists (updateBlogController bdb bfs bid btitle bcontent (some bf) false).fs
         ("uploads/" ++ blog.image) = false)) := by
  rw [updateUserProfileController_some_false db fs userId body f currentUser hfind,
    updateBlogController_some_false bdb bfs bid btitle bcontent bf blog hbfind]
  refine ⟨⟨rfl, rfl, fsPathExists_fsRemove_self _ _, fun hne hnd => ?_⟩,
    rfl, rfl, fsPathExists_fsRemove_self _ _, fun hbne => ?_⟩
  · have hg : (!(currentUser.profilePicture == "") &&
        !(currentUser.profilePicture == "default-avatar.png")) = true := by
      simp [hne, hnd]
    rw [hg, if_pos rfl]
    exact fsPathExists_fsRemove_of_eq_false _ _ _ (fsPathExists_removeIfExists _ _)
  · have hg : (!(blog.image == "")) = true := by simp [hbne]
    rw [hg, if_pos rfl]
    exact fsPathExists_fsRemove_of_eq_false _ _ _ (fsPathExists_removeIfExists _ _)

/-- Witness for c1_amended_swap_failure: a concrete failed profile update
and a concrete failed blog update; in both runs the new file and the old
file are gone from disk while the stores are unchanged. -/
theorem c1_amended_swap_failure_witness :
    (fsPathExists (updateUserProfileController
        [⟨1, "alice", "a@x.com", "#pw", "old.png", "", "", none, none, "user"⟩]
        ["uploads/old.png", "uploads/new.png"] 1
        ⟨none, none, none, none, none⟩ (some "new.png") false).fs
      ("uploads/" ++ "new.png") = false) ∧
    (fsPathExists (updateUserProfileController
        [⟨1, "alice", "a@x.com", "#pw", "old.png", "", "", none, none, "user"⟩]
        ["uploads/old.png", "uploads/new.png"] 1
        ⟨none, none, none, none, none⟩ (some "new.png") false).fs
      ("uploads/" ++ "old.png") = false) ∧
    (fsPathExists (updateBlogController
        [⟨1, "t", "c", "img.png", 7⟩]
        ["uploads/img.png", "uploads/newimg.png"] 1
        none none (some "newimg.png") false).fs
      ("uploads/" ++ "newimg.png") = false) ∧
    (fsPathExists (updateBlogController
        [⟨1, "t", "c", "img.png", 7⟩]
        ["uploads/img.png", "uploads/newimg.png"] 1
        none none (some "newimg.png") false).fs
      ("uploads/" ++ "img.png") = false) := by
  have h := c1_amended_swap_failure
    [⟨1, "alice", "a@x.com", "#pw", "old.png", "", "", none, none, "user"⟩]
    ["uploads/old.png", "uploads/new.png"] 1
    ⟨none, none, none, none, none⟩ "new.png"
    ⟨1, "alice", "a@x.com", "#pw", "old.png", "", "", none, none, "user"⟩
    (by decide)
    [⟨1, "t", "c", "img.png", 7⟩]
    ["uploads/img.png", "uploads/newimg.png"] 1
    none none "newimg.png" ⟨1, "t", "c", "img.png", 7⟩
    (by decide)
  exact ⟨h.1.2.2.1, h.1.2.2.2 (by decide) (by decide),
    h.2.2.2.1, h.2.2.2.2 (by decide)⟩

/-- C2 counterexample: deleteBlog on a blog whose record deletion fails.
The claim asserts the asset file is deleted only after the record
deletion has succeeded, never before; in this run the record deletion did
not succeed, yet the image file uploads/img.png is already gone from disk
and the record is still present — so the claim is false at this input. -/
theorem c2_counterexample :
    ((deleteBlogService [⟨1, "t", "c", "img.png", 7⟩]
        ["uploads/img.png"] 1 false).db = [⟨1, "t", "c", "img.png", 7⟩]) ∧
    (fsPathExists (deleteBlogService [⟨1, "t", "c", "img.png", 7⟩]
        ["uploads/img.png"] 1 false).fs "uploads/img.png" = false) ∧
    ((deleteBlogService [⟨1, "t", "c", "img.png", 7⟩]
        ["uploads/img.png"] 1 false).result = .error "record deletion failed") :=
  ⟨by decide, by decide, rfl⟩

/-- C2 as amended: deleteBlog removes the asset file from disk before the
record deletion — the file is gone whatever the outcome of the record
deletion, and a failed record deletion leaves the record in the store
with its file already deleted; deleteUser removes only the record and
never touches any file on disk. -/
theorem c2_amended_delete_order (db : List BlogRec) (fs : List String)
    (id : Nat) (blog : BlogRec)
    (hfind : db.find? (fun b => b.id == id) = some blog)
    (himg : blog.image ≠ "")
    (udb : List UserRec) (ufs : List String) (uid : Nat) :
    (∀ ok, fsPathExists (deleteBlogService db fs id ok).fs
      ("uploads/" ++ blog.image) = false) ∧
    ((deleteBlogService db fs id false).db = db) ∧
    ((deleteBlogService db fs id false).result = .error "record deletion failed") ∧
    ((removeUserController udb ufs uid).fs = ufs) := by
  have hg : (!(blog.image == "")) = true := by simp [himg]
  refine ⟨fun ok => ?_, ?_, ?_, ?_⟩
  · rw [deleteBlogService_found db fs id blog ok hfind]
    show fsPathExists (if !(blog.image == "") then _ else fs) _ = false
    rw [hg, if_pos rfl]
    exact fsPathExists_removeIfExists _ _
  · rw [deleteBlogService_found db fs id blog false hfind]; rfl
  · rw [deleteBlogService_found db fs id blog false hfind]; rfl
  · unfold removeUserController
    cases deleteUser udb uid <;> rfl

/-- Witness for c2_amended_delete_order: a concrete deleteBlog run with a
failed record deletion has the image file gone, and a concrete deleteUser
run leaves the disk exactly as it was. -/
theorem c2_amended_delete_order_witness :
    (fsPathExists (deleteBlogService [⟨1, "t", "c", "img.png", 7⟩]
        ["uploads/img.png"] 1 false).fs ("uploads/" ++ "img.png") = false) ∧
    ((removeUserController
        [⟨1, "alice", "a@x.com", "#pw", "old.png", "", "", none, none, "user"⟩]
        ["uploads/old.png"] 1).fs = ["uploads/old.png"]) := by
  have h := c2_amended_delete_order [⟨1, "t", "c", "img.png", 7⟩]
    ["uploads/img.png"] 1 ⟨1, "t", "c", "img.png", 7⟩ (by decide) (by decide)
    [⟨1, "alice", "a@x.com", "#pw", "old.png", "", "", none, none, "user"⟩]
    ["uploads/old.png"] 1
  exact ⟨h.1 false, h.2.2.2⟩

/-- C8: the reset-field pairing invariant — in every store state reachable
through register, forgotPassword, resetPassword, deleteUser and
updateProfile (login mutates nothing), each record has resetPasswordToken
and resetPasswordExpire either both set or both absent: forgotPassword
sets the pair together, resetPassword clears it together, and no
operation touches only one of the two. -/
theorem c8_reset_pairing_invariant (db : List UserRec) (h : Reachable db) :
    resetPaired db := by
  induction h with
  | init => intro u hu; cases hu
  | register hash db1 db2 freshId username email password profilePicture hdb heq ih =>
    intro v hv
    unfold registerUser at heq
    rcases hf : db1.find? (fun u => u.email == email) with _ | w
    · rw [hf] at heq
      simp only [Except.ok.injEq] at heq
      rw [← heq] at hv
      rcases List.mem_append.1 hv with hmem | hmem
      · exact ih v hmem
      · rw [List.mem_singleton.1 hmem]; rfl
    · rw [hf] at heq; exact absurd heq (by simp)
  | forgot db1 db2 email token now hdb heq ih =>
    intro v hv
    unfold forgotPassword at heq
    rcases hf : db1.find? (fun u => u.email == email) with _ | w
    · rw [hf] at heq; exact absurd heq (by simp)
    · rw [hf] at heq
      simp only [Except.ok.injEq] at heq
      rw [← heq] at hv
      rcases List.mem_map.1 hv with ⟨w2, hmem, hw2⟩
      by_cases hid : (w2.id == w.id) = true
      · rw [if_pos hid] at hw2; rw [← hw2]; rfl
      · rw [if_neg hid] at hw2; rw [← hw2]; exact ih w2 hmem
  | reset hash db1 db2 token newPassword now hdb heq ih =>
    intro v hv
    unfold resetPassword at heq
    rcases hf : db1.find? (resetMatches token now) with _ | w
    · rw [hf] at heq; exact absurd heq (by simp)
    · rw [hf] at heq
      simp only [Except.ok.injEq] at heq
      rw [← heq] at hv
      rcases List.mem_map.1 hv with ⟨w2, hmem, hw2⟩
      by_cases hid : (w2.id == w.id) = true
      · rw [if_pos hid] at hw2; rw [← hw2]; rfl
      · rw [if_neg hid] at hw2; rw [← hw2]; exact ih w2 hmem
  | remove db1 db2 id hdb heq ih =>
    intro v hv
    unfold deleteUser at heq
    rcases hf : db1.find? (fun u => u.id == id) with _ | w
    · rw [hf] at heq; exact absurd heq (by simp)
    · rw [hf] at heq
      simp only [Except.ok.injEq] at heq
      rw [← heq] at hv
      exact ih v (List.mem_filter.1 hv).1
  | update db1 db2 userId up u hdb heq ih =>
    intro v hv
    unfold updateUserProfileService at heq
    rcases hf : db1.find? (fun w => w.id == userId) with _ | w
    · rw [hf] at heq; exact absurd heq (by simp)
    · rw [hf] at heq
      simp only [Except.ok.injEq, Prod.mk.injEq] at heq
      rw [← heq.1] at hv
      rcases List.mem_map.1 hv with ⟨w2, hmem, hw2⟩
      by_cases hid : (w2.id == userId) = true
      · rw [if_pos hid] at hw2
        rw [← hw2]
        exact ih w2 hmem
      · rw [if_neg hid] at hw2; rw [← hw2]; exact ih w2 hmem

/-- Witness for c8_reset_pairing_invariant: a store reached by register
followed by forgotPassword; the single record satisfies the pairing. -/
theorem c8_reset_pairing_invariant_witness :
    (⟨1, "alice", "a@x.com", wHash "pw", "p.png", "", "",
      some "123456", some 103600000, "user"⟩ : UserRec).resetPasswordToken.isSome =
    (⟨1, "alice", "a@x.com", wHash "pw", "p.png", "", "",
      some "123456", some 103600000, "user"⟩ : UserRec).resetPasswordExpire.isSome :=
  c8_reset_pairing_invariant
    [⟨1, "alice", "a@x.com", wHash "pw", "p.png", "", "",
      some "123456", some 103600000, "user"⟩]
    (Reachable.forgot
      [⟨1, "alice", "a@x.com", wHash "pw", "p.png", "", "", none, none, "user"⟩]
      [⟨1, "alice", "a@x.com", wHash "pw", "p.png", "", "",
        some "123456", some 103600000, "user"⟩]
      "a@x.com" "123456" 100000000
      (Reachable.register wHash []
        [⟨1, "alice", "a@x.com", wHash "pw", "p.png", "", "", none, none, "user"⟩]
        1 "alice" "a@x.com" "pw" "p.png" Reachable.init rfl)
      rfl)
    _ (List.mem_singleton.2 rfl)

/-- C9: the updateProfile frame — the updates object is independent of
any role or password entry of the request body; applying it never changes
role, password, id, email or the reset fields; fields not provided
(absent or empty, hence falsy) keep their prior values while provided
ones are applied; and a request with no uploaded file leaves the disk
untouched and returns a user with the avatar reference unchanged. -/
theorem c9_update_profile_frame (db : List UserRec) (fs : List String)
    (userId : Nat) (body : ProfileBody) (file : Option String)
    (currentUser : UserRec)
    (hfind : db.find? (fun u => u.id == userId) = some currentUser) :
    (buildProfileUpdates body file =
      buildProfileUpdates { body with role := none, password := none } file) ∧
    (∀ u : UserRec,
      (applyUpdates (buildProfileUpdates body file) u).role = u.role ∧
      (applyUpdates (buildProfileUpdates body file) u).password = u.password ∧
      (applyUpdates (buildProfileUpdates body file) u).id = u.id ∧
      (applyUpdates (buildProfileUpdates body file) u).email = u.email ∧
      (applyUpdates (buildProfileUpdates body file) u).resetPasswordToken =
        u.resetPasswordToken ∧
      (applyUpdates (buildProfileUpdates body file) u).resetPasswordExpire =
        u.resetPasswordExpire ∧
      (truthy body.username = false →
        (applyUpdates (buildProfileUpdates body file) u).username = u.username) ∧
      (∀ s, body.username = some s → s ≠ "" →
        (applyUpdates (buildProfileUpdates body file) u).username = s) ∧
      (truthy body.address = false →
        (applyUpdates (buildProfileUpdates body file) u).address = u.address) ∧
      (∀ s, body.address = some s → s ≠ "" →
        (applyUpdates (buildProfileUpdates body file) u).address = s) ∧
      (truthy body.phone = false →
        (applyUpdates (buildProfileUpdates body file) u).phone = u.phone) ∧
      (∀ s, body.phone = some s → s ≠ "" →
        (applyUpdates (buildProfileUpdates body file) u).phone = s) ∧
      (file = none →
        (applyUpdates (buildProfileUpdates body file) u).profilePicture =
          u.profilePicture) ∧
      (∀ f, file = some f →
        (applyUpdates (buildProfileUpdates body file) u).profilePicture = f)) ∧
    (file = none →
      (updateUserProfileController db fs userId body file true).fs = fs ∧
      (updateUserProfileController db fs userId body file true).status = 200 ∧
      (updateUserProfileController db fs userId body file true).returned =
        some (applyUpdates (buildProfileUpdates body none) currentUser) ∧
      (applyUpdates (buildProfileUpdates body none) currentUser).profilePicture =
        currentUser.profilePicture) := by
  refine ⟨?_, fun u => ?_, fun hnone => ?_⟩
  · rfl
  · refine ⟨rfl, rfl, rfl, rfl, rfl, rfl, ?_, ?_, ?_, ?_, ?_, ?_, ?_, ?_⟩
    · intro h; simp [applyUpdates, buildProfileUpdates, h]
    · intro s hs hne
      simp [applyUpdates, buildProfileUpdates, hs, truthy, hne]
    · intro h; simp [applyUpdates, buildProfileUpdates, h]
    · intro s hs hne
      simp [applyUpdates, buildProfileUpdates, hs, truthy, hne]
    · intro h; simp [applyUpdates, buildProfileUpdates, h]
    · intro s hs hne
      simp [applyUpdates, buildProfileUpdates, hs, truthy, hne]
    · intro h; subst h; simp [applyUpdates, buildProfileUpdates]
    · intro f hf; subst hf; simp [applyUpdates, buildProfileUpdates]
  · subst hnone
    refine ⟨?_, ?_, ?_, rfl⟩ <;>
      simp [updateUserProfileController, hfind, updateUserProfileService]

/-- Witness for c9_update_profile_frame: a concrete no-file update that
changes only the phone number leaves the disk and the avatar unchanged,
and role and password keep their prior values. -/
theorem c9_update_profile_frame_witness :
    ((applyUpdates (buildProfileUpdates
        ⟨none, none, some "555", some "admin", some "h4ck"⟩ none)
      ⟨1, "alice", "a@x.com", "#pw", "old.png", "", "1", none, none, "user"⟩).role =
      "user") ∧
    ((applyUpdates (buildProfileUpdates
        ⟨none, none, some "555", some "admin", some "h4ck"⟩ none)
      ⟨1, "alice", "a@x.com", "#pw", "old.png", "", "1", none, none, "user"⟩).password =
      "#pw") ∧
    ((updateUserProfileController
        [⟨1, "alice", "a@x.com", "#pw", "old.png", "", "1", none, none, "user"⟩]
        ["uploads/old.png"] 1
        ⟨none, none, some "555", some "admin", some "h4ck"⟩ none true).fs =
      ["uploads/old.png"]) ∧
    ((applyUpdates (buildProfileUpdates
        ⟨none, none, some "555", some "admin", some "h4ck"⟩ none)
      ⟨1, "alice", "a@x.com", "#pw", "old.png", "", "1", none, none, "user"⟩).profilePicture =
      "old.png") := by
  have h := c9_update_profile_frame
    [⟨1, "alice", "a@x.com", "#pw", "old.png", "", "1", none, none, "user"⟩]
    ["uploads/old.png"] 1
    ⟨none, none, some "555", some "admin", some "h4ck"⟩ none
    ⟨1, "alice", "a@x.com", "#pw", "old.png", "", "1", none, none, "user"⟩
    (by decide)
  exact ⟨(h.2.1 _).1, (h.2.1 _).2.1,
    (h.2.2 rfl).1, by
      have := (h.2.1 ⟨1, "alice", "a@x.com", "#pw", "old.png", "", "1",
        none, none, "user"⟩).2.2.2.2.2.2.2.2.2.2.2.2.1 rfl
      exact this⟩

/-- Witness for c10_admin_string_includes: a moderator principal with a
valid token is rejected with Forbidden on an admin-gated route. -/
theorem c10_admin_string_includes_witness :
    (roleArgIncludes adminRouteArg "moderator" = true ↔ "moderator" = "admin") ∧
    ("moderator" ≠ "admin" →
      protectedRequest adminRouteArg (fun t => if t = "tok" then some 1 else none)
        (fun i => if i = 1 then some ⟨1, "moderator"⟩ else none) (some "tok") = .forbidden) ∧
    ("moderator" = "admin" →
      protectedRequest adminRouteArg (fun t => if t = "tok" then some 1 else none)
        (fun i => if i = 1 then some ⟨1, "moderator"⟩ else none) (some "tok") =
        .proceed ⟨1, "moderator"⟩) :=
  c10_admin_string_includes "moderator" (by decide)
    (fun t => if t = "tok" then some 1 else none)
    (fun i => if i = 1 then some ⟨1, "moderator"⟩ else none)
    "tok" 1 ⟨1, "moderator"⟩ (by decide) (by decide) (by decide) rfl

end AuthCore
